import Mathlib

/-!
Verification of the apex-studyer document ingestion and AI-normalization
pipeline.  Each definition is a shallow embedding of a function of the
repository; strings of the source stay verbatim, JavaScript objects become
structures, JSON values become the `JsonVal` inductive, and the external
effects (HTTP fetch, database insert) become explicit parameters and
trace fields (`fetchCount`, `insertCalls`, ...) of the result.
-/

/-- JsonVal models a parsed JSON value, as produced by `JSON.parse` and
consumed by JavaScript property accesses in the source. -/
inductive JsonVal where
  | null : JsonVal
  | bool (b : Bool) : JsonVal
  | num (n : Int) : JsonVal
  | str (s : String) : JsonVal
  | arr (elems : List JsonVal) : JsonVal
  | obj (fields : List (String × JsonVal)) : JsonVal


/-- getField models JavaScript property access `o[k]` on a parsed JSON
object: the value of the first field named `k`, or `none` (undefined)
when the field is absent. -/
def getField (fields : List (String × JsonVal)) (k : String) : Option JsonVal :=
  (fields.find? (fun p => p.1 == k)).map (fun p => p.2)

/-- jsonGet models JavaScript property access on an arbitrary JSON value:
`undefined` (here `none`) unless the value is an object with that field. -/
def jsonGet (v : JsonVal) (k : String) : Option JsonVal :=
  match v with
  | .obj fields => getField fields k
  | _ => none

namespace ProcessNote

/-- ToolCall models one entry of `message.tool_calls` of the chat-completion
response; `arguments` is the result of `JSON.parse(toolCall.function.arguments)`
(the claims treated here presuppose a syntactically valid response, so the
parse is modelled as already done). -/
structure ToolCall where
  arguments : JsonVal


/-- Message models `choices[i].message` of the chat-completion response;
`tool_calls` is `none` when the service answered with free-form text only. -/
structure Message where
  tool_calls : Option (List ToolCall)


/-- Choice models one entry of `data.choices`. -/
structure Choice where
  message : Message


/-- ChatCompletion models the JSON body `data` of a successful upstream
response. -/
structure ChatCompletion where
  choices : List Choice


/-- FetchResponse models the outcome of the single
`fetch('https://ai.gateway.lovable.dev/v1/chat/completions', ...)` call:
`ok`/`status` of the HTTP response, `errorText` as read by `response.text()`
on the error path, and `data` as parsed by `response.json()` on the success
path. -/
structure FetchResponse where
  ok : Bool
  status : Nat
  errorText : String
  data : ChatCompletion


/-- placeholderResult is the fallback object built at
src/supabase/functions/process-note/index.ts lines 87-91 when the response
carries no tool call. -/
def placeholderResult : JsonVal :=
  .obj [("summary", .str "Could not generate summary"),
        ("keywords", .arr []),
        ("mindmap", .null)]

/-- ServeBody is the JSON body of the handler's HTTP response: either the
normalized result or the catch-block's error object. -/
inductive ServeBody where
  | result (r : JsonVal) : ServeBody
  | error (msg : String) : ServeBody


/-- ServeOutcome is the handler's observable behaviour: HTTP status, body,
and how many upstream fetches were performed (the handler has no loop, so
the count is 0 or 1). -/
structure ServeOutcome where
  status : Nat
  body : ServeBody
  fetchCount : Nat


/-- keyFalsy models the JavaScript truthiness test `!LOVABLE_API_KEY` on the
result of `Deno.env.get` (undefined or the empty string are falsy). -/
def keyFalsy : Option String → Bool
  | none => true
  | some s => s.isEmpty

/-- extractResult models lines 85-91: `data.choices[0].message.tool_calls?.[0]`
followed by the ternary; reading `.message` of an absent `choices[0]` throws,
which the surrounding try/catch turns into an error. -/
def extractResult (data : ChatCompletion) : Except String JsonVal :=
  match data.choices.head? with
  | none => .error "Cannot read properties of undefined"
  | some choice =>
    match choice.message.tool_calls.bind List.head? with
    | some toolCall => .ok toolCall.arguments
    | none => .ok placeholderResult

/-- serve models the request handler of
src/supabase/functions/process-note/index.ts for a non-OPTIONS request with
a well-formed JSON body: check the credential, fetch once, check `response.ok`,
extract the result; every thrown error is caught and returned as a 500
response with the error message. -/
def serve (apiKey : Option String) (response : FetchResponse) : ServeOutcome :=
  if keyFalsy apiKey then
    { status := 500, body := .error "LOVABLE_API_KEY not configured", fetchCount := 0 }
  else if !response.ok then
    { status := 500, body := .error ("AI API error: " ++ toString response.status), fetchCount := 1 }
  else
    match extractResult response.data with
    | .error msg => { status := 500, body := .error msg, fetchCount := 1 }
    | .ok r => { status := 200, body := .result r, fetchCount := 1 }

/-- resultField reads one field of the JSON object returned on the success
path, `none` when the body is an error or the field is absent. -/
def resultField (o : ServeOutcome) (k : String) : Option JsonVal :=
  match o.body with
  | .result r => jsonGet r k
  | .error _ => none

/-- cexArgs is a syntactically valid tool-call argument object that is
missing the required field `summary` while carrying `keywords`. -/
def cexArgs : JsonVal :=
  .obj [("keywords", .arr [.str "photosynthesis", .str "chlorophyll"])]

/-- cexResponse is a successful upstream response whose tool call carries
`cexArgs`. -/
def cexResponse : FetchResponse :=
  { ok := true, status := 200, errorText := "",
    data := { choices := [{ message := { tool_calls := some [{ arguments := cexArgs }] } }] } }

end ProcessNote

namespace Notes

/-- Text models a JavaScript string as its list of characters, so that the
whitespace trimming of `String.prototype.trim` can be reasoned about
structurally. -/
abbrev Text := List Char

/-- ws is the whitespace test used by trimming. -/
def ws (c : Char) : Bool := c.isWhitespace

/-- trimLeft drops leading whitespace. -/
def trimLeft (s : Text) : Text := s.dropWhile ws

/-- trimRight drops trailing whitespace. -/
def trimRight (s : Text) : Text := (s.reverse.dropWhile ws).reverse

/-- trim models `s.trim()`: both ends stripped of whitespace. -/
def trim (s : Text) : Text := trimLeft (trimRight s)

/-- blankLine is the `'\n\n'` separator appended after each page. -/
def blankLine : Text := ['\n', '\n']

/-- pageText models lines 68-70 of src/src/pages/Notes.tsx: the text items of
one page joined by single spaces,
`textContent.items.map(item => item.str).join(' ')`. -/
def pageText (items : List Text) : Text := List.intercalate [' '] items

/-- extractTextFromPDF models lines 60-75 of src/src/pages/Notes.tsx: the
document is the list of its pages in order, each page the list of its
extracted text items; the loop accumulates `pageText + '\n\n'` per page and
the result is trimmed. -/
def extractTextFromPDF (pages : List (List Text)) : Text :=
  trim (pages.foldl (fun fullText its => fullText ++ pageText its ++ blankLine) [])

/-- joinPages concatenates page texts in order with a blank line between
each adjacent pair. -/
def joinPages : List Text → Text
  | [] => []
  | [p] => p
  | p :: rest => p ++ blankLine ++ joinPages rest

/-- loopConcat is the accumulator shape of the extraction loop: every page
text followed by the separator. -/
def loopConcat : List Text → Text
  | [] => []
  | p :: rest => p ++ blankLine ++ loopConcat rest

/-- specPDFConcat is modelled from the spec sentence behind claim C3
(refinement comparison only): the per-page extracted text runs concatenated
in page order, each adjacent pair of pages separated by a blank line. -/
def specPDFConcat (pages : List (List Text)) : Text :=
  joinPages (pages.map pageText)

/-- UploadedFile models the `File` picked in the upload input: its name and
declared MIME type. -/
structure UploadedFile where
  name : String
  type : String

/-- pdfMime is the accepted PDF MIME type. -/
def pdfMime : String := "application/pdf"

/-- docxMime is the accepted DOCX MIME type. -/
def docxMime : String :=
  "application/vnd.openxmlformats-officedocument.wordprocessingml.document"

/-- FileChangeResult is the observable behaviour of `handleFileChange`:
which file got selected, whether text extraction was started, how many
network requests to the AI service or the data store were issued by the
handler (none occur in its code), and the error toast shown, if any. -/
structure FileChangeResult where
  selectedFile : Option UploadedFile
  extractionAttempted : Bool
  networkRequests : Nat
  errorToast : Option String

/-- handleFileChange models lines 83-112 of src/src/pages/Notes.tsx: no file
does nothing; a PDF/DOCX MIME type is accepted and extraction starts; any
other type only shows the error toast. -/
def handleFileChange (file : Option UploadedFile) : FileChangeResult :=
  match file with
  | none => { selectedFile := none, extractionAttempted := false,
              networkRequests := 0, errorToast := none }
  | some f =>
    if f.type = pdfMime ∨ f.type = docxMime then
      { selectedFile := some f, extractionAttempted := true,
        networkRequests := 0, errorToast := none }
    else
      { selectedFile := none, extractionAttempted := false,
        networkRequests := 0, errorToast := some "Please upload a PDF or DOCX file" }

/-- NoteRow models one row of the `notes` table as written by `handleSubmit`;
`created_at` is the store-assigned creation timestamp. -/
structure NoteRow where
  user_id : String
  title : String
  original_text : String
  summary : Option JsonVal
  keywords : Option JsonVal
  questions : Option JsonVal
  mindmap : Option JsonVal
  file_name : Option String
  created_at : Nat

/-- SubmitResult is the observable behaviour of `handleSubmit`: the notes
table afterwards, whether the success path completed, the toast shown, and
how many calls were issued to the Normalizer edge function and to the
insert endpoint of the store. -/
structure SubmitResult where
  db : List NoteRow
  success : Bool
  toast : String
  normalizerCalls : Nat
  insertCalls : Nat

/-- handleSubmit models lines 114-160 of src/src/pages/Notes.tsx: validate
inputs, invoke the `process-note` edge function once, insert the note once;
a failure of either call is thrown, caught, and reported by a toast, leaving
the table as it was.  `aiOutcome` is the edge-function response and
`insertFails` whether the store rejects the insert; `now` is the creation
timestamp the store assigns on success. -/
def handleSubmit (user : Option String) (noteTitle noteText : String)
    (selectedFile : Option UploadedFile)
    (aiOutcome : Except String JsonVal) (insertFails : Bool)
    (now : Nat) (db : List NoteRow) : SubmitResult :=
  match user with
  | none => { db := db, success := false, toast := "Please provide both title and text",
              normalizerCalls := 0, insertCalls := 0 }
  | some u =>
    if noteTitle = "" ∨ noteText = "" then
      { db := db, success := false, toast := "Please provide both title and text",
        normalizerCalls := 0, insertCalls := 0 }
    else
      match aiOutcome with
      | .error _ => { db := db, success := false, toast := "Failed to process note",
                      normalizerCalls := 1, insertCalls := 0 }
      | .ok aiData =>
        if insertFails then
          { db := db, success := false, toast := "Failed to process note",
            normalizerCalls := 1, insertCalls := 1 }
        else
          { db := db ++ [{ user_id := u, title := noteTitle, original_text := noteText,
                           summary := jsonGet aiData "summary",
                           keywords := jsonGet aiData "keywords",
                           questions := jsonGet aiData "questions",
                           mindmap := jsonGet aiData "mindmap",
                           file_name := selectedFile.map (fun f => f.name),
                           created_at := now }],
            success := true, toast := "Note processed and saved!",
            normalizerCalls := 1, insertCalls := 1 }

/-- fetchNotes models lines 42-58 of src/src/pages/Notes.tsx: the caller's
rows of the `notes` table ordered by `created_at` descending. -/
def fetchNotes (db : List NoteRow) (uid : String) : List NoteRow :=
  List.insertionSort (fun a b => b.created_at ≤ a.created_at)
    (db.filter (fun n => n.user_id == uid))

end Notes

namespace Planner

/-- StudyTask models one row of the `study_tasks` table: `date` is the
scheduled date of the task (entered by the user), `created_at` the
store-assigned creation timestamp; both as numeric timestamps. -/
structure StudyTask where
  user_id : String
  title : String
  description : Option String
  date : Nat
  completed : Bool
  created_at : Nat

/-- fetchTasks models lines 38-54 of src/src/pages/Planner.tsx: the caller's
rows of the `study_tasks` table ordered by the `date` column ascending. -/
def fetchTasks (db : List StudyTask) (uid : String) : List StudyTask :=
  List.insertionSort (fun a b => a.date ≤ b.date)
    (db.filter (fun t => t.user_id == uid))

end Planner

namespace Quizzes

/-- Question models one generated quiz question of the Quizzes page
(src/unnamed/part_003): options, the index of the correct answer as sent by
the model (a JSON number), and an explanation. -/
structure Question where
  question : String
  options : List String
  correct_answer : Int
  explanation : String

/-- QuizRow models the row inserted into the `quizzes` table by
`saveQuizResult`. -/
structure QuizRow where
  user_id : String
  title : String
  questions : List Question
  score : Nat
  total_questions : Nat
  completed : Bool

/-- QuizState is the component state driving one quiz run, plus `savedRows`,
the trace of rows inserted into the `quizzes` table so far. -/
structure QuizState where
  currentQuestion : Nat
  selectedAnswer : Option Nat
  score : Nat
  showResult : Bool
  savedRows : List QuizRow

/-- initialQuizState is the state right after `generateQuiz` succeeded:
question 0, no selection, score 0, no result shown, nothing saved. -/
def initialQuizState : QuizState :=
  { currentQuestion := 0, selectedAnswer := none, score := 0,
    showResult := false, savedRows := [] }

/-- saveQuizResult models lines 113-131 of src/unnamed/part_003: with no
signed-in user nothing is inserted; otherwise exactly one row with the
given final score, `total_questions` the length of the current question
list, and `completed` true.  The returned list is what gets appended to the
`quizzes` table. -/
def saveQuizResult (user : Option String) (topic : String)
    (currentQuiz : List Question) (finalScore : Nat) : List QuizRow :=
  match user with
  | none => []
  | some u => [{ user_id := u, title := topic, questions := currentQuiz,
                 score := finalScore, total_questions := currentQuiz.length,
                 completed := true }]

/-- handleAnswerSelect models lines 89-91 of src/unnamed/part_003. -/
def handleAnswerSelect (st : QuizState) (answerIndex : Nat) : QuizState :=
  { st with selectedAnswer := some answerIndex }

/-- handleNextQuestion models lines 93-111 of src/unnamed/part_003: no
selection only toasts; otherwise the selected index is compared with the
current question's `correct_answer`; before the last question the state
advances, on the last question the result is shown and `saveQuizResult`
runs with the final score.  Reading `correct_answer` of an out-of-range
question throws in JavaScript, modelled by `none`. -/
def handleNextQuestion (user : Option String) (topic : String)
    (currentQuiz : List Question) (st : QuizState) : Option QuizState :=
  match st.selectedAnswer with
  | none => some st
  | some selected =>
    match currentQuiz[st.currentQuestion]? with
    | none => none
    | some q =>
      let isCorrect := ((selected : Int) == q.correct_answer)
      let newScore := if isCorrect then st.score + 1 else st.score
      if st.currentQuestion < currentQuiz.length - 1 then
        some { st with score := newScore,
                       currentQuestion := st.currentQuestion + 1,
                       selectedAnswer := none }
      else
        some { st with score := newScore,
                       showResult := true,
                       savedRows := st.savedRows ++
                         saveQuizResult user topic currentQuiz newScore }

/-- answerAndNext is one user interaction: pick an answer, then press the
Next/Finish button. -/
def answerAndNext (user : Option String) (topic : String)
    (currentQuiz : List Question) (st : QuizState) (selected : Nat) :
    Option QuizState :=
  handleNextQuestion user topic currentQuiz (handleAnswerSelect st selected)

/-- runQuiz plays a freshly generated quiz through, answering the questions
with `answers` in order. -/
def runQuiz (user : Option String) (topic : String)
    (currentQuiz : List Question) (answers : List Nat) : Option QuizState :=
  answers.foldlM (answerAndNext user topic currentQuiz) initialQuizState

/-- countCorrect counts the answers that equal the `correct_answer` index of
their question. -/
def countCorrect (answers : List Nat) (questions : List Question) : Nat :=
  (answers.zip questions).countP (fun p => ((p.1 : Int) == p.2.correct_answer))

/-- sampleQuiz is a concrete five-question quiz mirroring the spec's
Photosynthesis scenario. -/
def sampleQuiz : List Question :=
  [{ question := "Q1", options := ["a", "b", "c"], correct_answer := 0, explanation := "E1" },
   { question := "Q2", options := ["a", "b", "c"], correct_answer := 1, explanation := "E2" },
   { question := "Q3", options := ["a", "b", "c"], correct_answer := 2, explanation := "E3" },
   { question := "Q4", options := ["a", "b", "c"], correct_answer := 0, explanation := "E4" },
   { question := "Q5", options := ["a", "b", "c"], correct_answer := 1, explanation := "E5" }]

/-- sampleAnswers answers the first three questions of `sampleQuiz`
correctly and the last two incorrectly. -/
def sampleAnswers : List Nat := [0, 1, 2, 1, 0]

end Quizzes

/-- Claim C7: a Normalizer invocation made without the required credential
configured fails with a configuration error surfaced to the caller, and no
network request to the external completion service is made
(`fetchCount = 0`). -/
theorem C7_missing_credential_no_fetch (apiKey : Option String)
    (resp : ProcessNote.FetchResponse)
    (h : ProcessNote.keyFalsy apiKey = true) :
    ProcessNote.serve apiKey resp =
      { status := 500,
        body := .error "LOVABLE_API_KEY not configured",
        fetchCount := 0 } := by
  simp [ProcessNote.serve, h]

/-- Witness for C7: unset credential, a concrete would-be response. -/
theorem C7_missing_credential_no_fetch_witness :
    ProcessNote.keyFalsy none = true ∧
    ProcessNote.serve none
        { ok := true, status := 200, errorText := "", data := { choices := [] } } =
      { status := 500,
        body := .error "LOVABLE_API_KEY not configured",
        fetchCount := 0 } :=
  ⟨rfl, C7_missing_credential_no_fetch none _ rfl⟩

/-- Claim C8: when the external completion service responds with a non-2xx
status, exactly one request was sent (`fetchCount = 1`, the handler has no
retry) and the error surfaced to the caller carries that status code. -/
theorem C8_upstream_error_single_request (apiKey : Option String)
    (resp : ProcessNote.FetchResponse)
    (hk : ProcessNote.keyFalsy apiKey = false)
    (hok : resp.ok = false) :
    ProcessNote.serve apiKey resp =
      { status := 500,
        body := .error ("AI API error: " ++ toString resp.status),
        fetchCount := 1 } := by
  simp [ProcessNote.serve, hk, hok]

/-- Witness for C8: a 429 upstream response with a configured credential. -/
theorem C8_upstream_error_single_request_witness :
    ProcessNote.keyFalsy (some "key") = false ∧
    ProcessNote.serve (some "key")
        { ok := false, status := 429, errorText := "Too Many Requests",
          data := { choices := [] } } =
      { status := 500,
        body := .error ("AI API error: " ++ toString (429 : Nat)),
        fetchCount := 1 } :=
  ⟨rfl, C8_upstream_error_single_request (some "key") _ rfl rfl⟩

/-- Claim C6: when the upstream responds successfully but with free-form
text and no structured tool-call result, the handler returns the default
placeholder result (placeholder summary string, empty keyword list, null
mindmap) with status 200 instead of failing. -/
theorem C6_free_text_placeholder (apiKey : Option String)
    (resp : ProcessNote.FetchResponse) (c : ProcessNote.Choice)
    (hk : ProcessNote.keyFalsy apiKey = false)
    (hok : resp.ok = true)
    (hc : resp.data.choices.head? = some c)
    (htc : c.message.tool_calls = none) :
    ProcessNote.serve apiKey resp =
      { status := 200,
        body := .result ProcessNote.placeholderResult,
        fetchCount := 1 } := by
  simp [ProcessNote.serve, ProcessNote.extractResult, hk, hok, hc, htc]

/-- Witness for C6: a free-text-only upstream response. -/
theorem C6_free_text_placeholder_witness :
    ProcessNote.keyFalsy (some "key") = false ∧
    ProcessNote.serve (some "key")
        { ok := true, status := 200, errorText := "",
          data := { choices := [{ message := { tool_calls := none } }] } } =
      { status := 200,
        body := .result ProcessNote.placeholderResult,
        fetchCount := 1 } :=
  ⟨rfl, C6_free_text_placeholder (some "key") _ { message := { tool_calls := none } }
    rfl rfl rfl rfl⟩

/-- Claim C1 counterexample: for the successful upstream response
`cexResponse`, whose structured tool-call arguments are missing the required
field `summary`, the returned result leaves `summary` absent rather than
substituting the placeholder value for it (the present `keywords` field is
kept and no error is thrown), so the claim as stated is false. -/
theorem C1_counterexample :
    ProcessNote.resultField
        (ProcessNote.serve (some "key") ProcessNote.cexResponse) "summary" = none ∧
    ProcessNote.resultField
        (ProcessNote.serve (some "key") ProcessNote.cexResponse) "summary" ≠
      some (.str "Could not generate summary") ∧
    ProcessNote.resultField
        (ProcessNote.serve (some "key") ProcessNote.cexResponse) "keywords" =
      some (.arr [.str "photosynthesis", .str "chlorophyll"]) ∧
    (ProcessNote.serve (some "key") ProcessNote.cexResponse).status = 200 :=
  ⟨rfl, fun h => Option.noConfusion h, rfl, rfl⟩

/-- Claim C1 as amended: when the upstream returns a syntactically valid
structured tool-call result, the call never throws and returns the parsed
arguments unchanged — fields that were present keep their returned values
and a missing required field is simply absent from the result, with no
placeholder substituted for it (the all-placeholder result arises only when
no tool call is present at all). -/
theorem C1_tool_call_arguments_returned_unchanged (apiKey : Option String)
    (resp : ProcessNote.FetchResponse) (c : ProcessNote.Choice)
    (tc : ProcessNote.ToolCall)
    (hk : ProcessNote.keyFalsy apiKey = false)
    (hok : resp.ok = true)
    (hc : resp.data.choices.head? = some c)
    (htc : c.message.tool_calls.bind List.head? = some tc) :
    ProcessNote.serve apiKey resp =
      { status := 200, body := .result tc.arguments, fetchCount := 1 } := by
  simp [ProcessNote.serve, ProcessNote.extractResult, hk, hok, hc, htc]

/-- Witness for the amended C1 at the counterexample response. -/
theorem C1_tool_call_arguments_returned_unchanged_witness :
    ProcessNote.keyFalsy (some "key") = false ∧
    ProcessNote.serve (some "key") ProcessNote.cexResponse =
      { status := 200,
        body := .result ProcessNote.cexArgs,
        fetchCount := 1 } :=
  ⟨rfl, C1_tool_call_arguments_returned_unchanged (some "key") ProcessNote.cexResponse
    { message := { tool_calls := some [{ arguments := ProcessNote.cexArgs }] } }
    { arguments := ProcessNote.cexArgs } rfl rfl rfl rfl⟩

/-- Claim C9: an uploaded file whose MIME type is neither PDF nor DOCX is
rejected with the user-facing toast before any text extraction is attempted
and before any network call occurs. -/
theorem C9_reject_non_pdf_docx (f : Notes.UploadedFile)
    (h1 : f.type ≠ Notes.pdfMime) (h2 : f.type ≠ Notes.docxMime) :
    Notes.handleFileChange (some f) =
      { selectedFile := none, extractionAttempted := false,
        networkRequests := 0,
        errorToast := some "Please upload a PDF or DOCX file" } := by
  simp [Notes.handleFileChange, h1, h2]

/-- Witness for C9: a plain-text upload. -/
theorem C9_reject_non_pdf_docx_witness :
    ({ name := "notes.txt", type := "text/plain" } : Notes.UploadedFile).type ≠
        Notes.pdfMime ∧
    ({ name := "notes.txt", type := "text/plain" } : Notes.UploadedFile).type ≠
        Notes.docxMime ∧
    Notes.handleFileChange (some { name := "notes.txt", type := "text/plain" }) =
      { selectedFile := none, extractionAttempted := false,
        networkRequests := 0,
        errorToast := some "Please upload a PDF or DOCX file" } :=
  ⟨by decide, by decide,
   C9_reject_non_pdf_docx { name := "notes.txt", type := "text/plain" }
     (by decide) (by decide)⟩

/-- Claim C5: when the Normalizer call succeeds but the subsequent Gateway
insert fails, `handleSubmit` leaves the notes table unchanged, issues no
retry (exactly one Normalizer call and one insert call), and discards the
generated result: the outcome does not depend on the generated payload at
all, so nothing is staged. -/
theorem C5_persist_failure_discards_result (u : String)
    (noteTitle noteText : String) (file : Option Notes.UploadedFile)
    (aiData : JsonVal) (now : Nat) (db : List Notes.NoteRow)
    (ht : noteTitle ≠ "") (hx : noteText ≠ "") :
    Notes.handleSubmit (some u) noteTitle noteText file (.ok aiData) true now db =
      { db := db, success := false, toast := "Failed to process note",
        normalizerCalls := 1, insertCalls := 1 } ∧
    ∀ aiData2 : JsonVal,
      Notes.handleSubmit (some u) noteTitle noteText file (.ok aiData2) true now db =
        Notes.handleSubmit (some u) noteTitle noteText file (.ok aiData) true now db := by
  refine ⟨?_, ?_⟩
  · simp [Notes.handleSubmit, ht, hx]
  · intro aiData2
    simp [Notes.handleSubmit, ht, hx]

/-- Witness for C5: concrete note submission over a one-row table whose
insert is rejected. -/
theorem C5_persist_failure_discards_result_witness :
    ("Biology" : String) ≠ "" ∧ ("chloroplast notes" : String) ≠ "" ∧
    Notes.handleSubmit (some "user-1") "Biology" "chloroplast notes" none
        (.ok (.obj [("summary", .str "s"), ("keywords", .arr [])])) true 7
        [{ user_id := "user-1", title := "Old", original_text := "t",
           summary := none, keywords := none, questions := none,
           mindmap := none, file_name := none, created_at := 5 }] =
      { db := [{ user_id := "user-1", title := "Old", original_text := "t",
                 summary := none, keywords := none, questions := none,
                 mindmap := none, file_name := none, created_at := 5 }],
        success := false, toast := "Failed to process note",
        normalizerCalls := 1, insertCalls := 1 } :=
  ⟨by decide, by decide,
   (C5_persist_failure_discards_result "user-1" "Biology" "chloroplast notes" none
     (.obj [("summary", .str "s"), ("keywords", .arr [])]) 7
     [{ user_id := "user-1", title := "Old", original_text := "t",
        summary := none, keywords := none, questions := none,
        mindmap := none, file_name := none, created_at := 5 }]
     (by decide) (by decide)).1⟩

/-- Claim C4 counterexample: for a concrete `study_tasks` table whose three
rows (all owned by the caller) have scheduled dates 1, 2, 3 but creation
times 2, 1, 3, the Planner list read returns them ordered by scheduled
date, which is neither ascending nor descending by creation time — so the
claim that every list read is ordered by creation time is false. -/
theorem C4_counterexample :
    ¬ ((Planner.fetchTasks
          [{ user_id := "u", title := "a", description := none,
             date := 1, completed := false, created_at := 2 },
           { user_id := "u", title := "b", description := none,
             date := 2, completed := false, created_at := 1 },
           { user_id := "u", title := "c", description := none,
             date := 3, completed := false, created_at := 3 }] "u").Pairwise
            (fun a b => a.created_at ≤ b.created_at) ∨
       (Planner.fetchTasks
          [{ user_id := "u", title := "a", description := none,
             date := 1, completed := false, created_at := 2 },
           { user_id := "u", title := "b", description := none,
             date := 2, completed := false, created_at := 1 },
           { user_id := "u", title := "c", description := none,
             date := 3, completed := false, created_at := 3 }] "u").Pairwise
            (fun a b => b.created_at ≤ a.created_at)) := by
  decide

/-- Claim C4 as amended: every Gateway list read returns exactly the
caller's rows in a caller-specified order — the Notes list by creation time
descending, but the Planner task list by the task's scheduled date
ascending (which need not coincide with creation order). -/
theorem C4_list_read_ordering (tdb : List Planner.StudyTask)
    (ndb : List Notes.NoteRow) (uid : String) :
    (Planner.fetchTasks tdb uid).Pairwise (fun a b => a.date ≤ b.date) ∧
    (∀ t ∈ Planner.fetchTasks tdb uid, t.user_id = uid) ∧
    (Planner.fetchTasks tdb uid).Perm
      (tdb.filter (fun t => t.user_id == uid)) ∧
    (Notes.fetchNotes ndb uid).Pairwise
      (fun a b => b.created_at ≤ a.created_at) ∧
    (∀ n ∈ Notes.fetchNotes ndb uid, n.user_id = uid) ∧
    (Notes.fetchNotes ndb uid).Perm
      (ndb.filter (fun n => n.user_id == uid)) := by
  haveI : IsTotal Planner.StudyTask (fun a b => a.date ≤ b.date) :=
    ⟨fun a b => Nat.le_total a.date b.date⟩
  haveI : IsTrans Planner.StudyTask (fun a b => a.date ≤ b.date) :=
    ⟨fun a b c hab hbc => Nat.le_trans hab hbc⟩
  haveI : IsTotal Notes.NoteRow (fun a b => b.created_at ≤ a.created_at) :=
    ⟨fun a b => Nat.le_total b.created_at a.created_at⟩
  haveI : IsTrans Notes.NoteRow (fun a b => b.created_at ≤ a.created_at) :=
    ⟨fun a b c hab hbc => Nat.le_trans hbc hab⟩
  refine ⟨List.sorted_insertionSort _ _, ?_, List.perm_insertionSort _ _,
          List.sorted_insertionSort _ _, ?_, List.perm_insertionSort _ _⟩
  · intro t ht
    have h2 := (List.perm_insertionSort (fun a b : Planner.StudyTask => a.date ≤ b.date)
      (tdb.filter (fun t => t.user_id == uid))).mem_iff.mp ht
    simpa using (List.mem_filter.mp h2).2
  · intro n hn
    have h2 := (List.perm_insertionSort
      (fun a b : Notes.NoteRow => b.created_at ≤ a.created_at)
      (ndb.filter (fun n => n.user_id == uid))).mem_iff.mp hn
    simpa using (List.mem_filter.mp h2).2

/-- The extraction loop accumulates every page text followed by the
separator. -/
theorem foldl_pageText_eq (pages : List (List Notes.Text)) :
    ∀ acc : Notes.Text,
      pages.foldl (fun fullText its => fullText ++ Notes.pageText its ++ Notes.blankLine) acc
        = acc ++ Notes.loopConcat (pages.map Notes.pageText) := by
  induction pages with
  | nil =>
    intro acc
    simp [Notes.loopConcat]
  | cons p ps ih =>
    intro acc
    simp only [List.foldl_cons, List.map_cons, Notes.loopConcat]
    rw [ih]
    simp [List.append_assoc]

/-- A nonempty loop accumulation is the blank-line-separated join followed
by one trailing separator. -/
theorem loopConcat_eq_joinPages (l : List Notes.Text) (h : l ≠ []) :
    Notes.loopConcat l = Notes.joinPages l ++ Notes.blankLine := by
  induction l with
  | nil => exact absurd rfl h
  | cons p rest ih =>
    cases rest with
    | nil => simp [Notes.loopConcat, Notes.joinPages]
    | cons q t =>
      rw [show Notes.loopConcat (p :: q :: t)
            = p ++ Notes.blankLine ++ Notes.loopConcat (q :: t) from rfl,
          ih (by simp),
          show Notes.joinPages (p :: q :: t)
            = p ++ Notes.blankLine ++ Notes.joinPages (q :: t) from rfl]
      simp [List.append_assoc]

/-- Dropping while a predicate holds skips a prefix on which it always
holds. -/
theorem dropWhile_append_all {p : Char → Bool} (xs ys : List Char)
    (h : ∀ c ∈ xs, p c = true) :
    (xs ++ ys).dropWhile p = ys.dropWhile p := by
  induction xs with
  | nil => simp
  | cons x t ih =>
    rw [List.cons_append, List.dropWhile_cons, if_pos (h x (List.mem_cons_self x t))]
    exact ih (fun c hc => h c (List.mem_cons_of_mem x hc))

/-- Trailing whitespace-only separators vanish under right trimming. -/
theorem trimRight_append_blankLine (x : Notes.Text) :
    Notes.trimRight (x ++ Notes.blankLine) = Notes.trimRight x := by
  unfold Notes.trimRight
  rw [List.reverse_append, dropWhile_append_all _ _ (by decide)]

/-- Trailing whitespace-only separators vanish under trimming. -/
theorem trim_append_blankLine (x : Notes.Text) :
    Notes.trim (x ++ Notes.blankLine) = Notes.trim x := by
  unfold Notes.trim
  rw [trimRight_append_blankLine]

/-- Claim C3 counterexample: for a two-page document whose first page has
the single text run `a` and whose second page has no text runs, extraction
returns `a` while the claimed blank-line-separated concatenation is
`a\n\n` — the final trim removed the separator, so the claim as stated is
false. -/
theorem C3_counterexample :
    Notes.extractTextFromPDF [[['a']], []] ≠ Notes.specPDFConcat [[['a']], []] ∧
    Notes.extractTextFromPDF [[['a']], []] = ['a'] ∧
    Notes.specPDFConcat [[['a']], []] = ['a', '\n', '\n'] := by
  decide

/-- Claim C3 as amended: for every PDF document, extraction returns the
per-page extracted text runs concatenated in page order with each adjacent
pair of pages separated by a blank line, and then trimmed of leading and
trailing whitespace (so separators bordering empty or whitespace-edged
outer pages are removed). -/
theorem C3_extraction_is_trimmed_concat (pages : List (List Notes.Text)) :
    Notes.extractTextFromPDF pages = Notes.trim (Notes.specPDFConcat pages) := by
  cases pages with
  | nil => rfl
  | cons p ps =>
    unfold Notes.extractTextFromPDF Notes.specPDFConcat
    rw [foldl_pageText_eq, List.nil_append,
        loopConcat_eq_joinPages _ (by simp), trim_append_blankLine]

/-- One pair of a selected answer and its question contributes to the
correct-answer count exactly when the selection matches. -/
theorem countCorrect_cons (a : Nat) (ans : List Nat) (q : Quizzes.Question)
    (qs : List Quizzes.Question) :
    Quizzes.countCorrect (a :: ans) (q :: qs) =
      Quizzes.countCorrect ans qs +
        (if ((a : Int) == q.correct_answer) = true then 1 else 0) := by
  simp [Quizzes.countCorrect, List.countP_cons]

/-- Playing the remaining answers from question `j` with current score `s`
finishes the quiz: the run does not throw, the final score adds the correct
answers among the remaining ones, the result screen shows, and exactly the
`saveQuizResult` rows for the final score get appended. -/
theorem runQuiz_aux (u : Option String) (topic : String)
    (quiz : List Quizzes.Question) :
    ∀ (rest : List Nat) (j s : Nat) (rows : List Quizzes.QuizRow),
      rest ≠ [] → j + rest.length = quiz.length →
      ∃ st : Quizzes.QuizState,
        List.foldlM (Quizzes.answerAndNext u topic quiz)
            { currentQuestion := j, selectedAnswer := none, score := s,
              showResult := false, savedRows := rows } rest = some st ∧
        st.score = s + Quizzes.countCorrect rest (quiz.drop j) ∧
        st.showResult = true ∧
        st.savedRows = rows ++ Quizzes.saveQuizResult u topic quiz
          (s + Quizzes.countCorrect rest (quiz.drop j)) := by
  intro rest
  induction rest with
  | nil =>
    intro j s rows hne _
    exact absurd rfl hne
  | cons a rest' ih =>
    intro j s rows _ hlen
    rw [List.length_cons] at hlen
    have hj : j < quiz.length := by omega
    have hdrop : quiz.drop j = quiz[j] :: quiz.drop (j + 1) :=
      List.drop_eq_getElem_cons hj
    cases rest' with
    | nil =>
      simp only [List.length_nil] at hlen
      have hj1 : ¬ (j < quiz.length - 1) := by omega
      have hdrop1 : quiz.drop (j + 1) = [] := List.drop_eq_nil_of_le (by omega)
      cases hb : ((a : Int) == quiz[j].correct_answer) with
      | false =>
        refine ⟨⟨j, some a, s, true,
                 rows ++ Quizzes.saveQuizResult u topic quiz s⟩, ?_, ?_, rfl, ?_⟩
        · simp only [List.foldlM_cons, List.foldlM_nil, Quizzes.answerAndNext,
            Quizzes.handleAnswerSelect, Quizzes.handleNextQuestion]
          rw [List.getElem?_eq_getElem hj]
          simp [hb, if_neg hj1]
        · rw [hdrop, hdrop1, countCorrect_cons, hb]
          simp [Quizzes.countCorrect]
        · rw [hdrop, hdrop1, countCorrect_cons, hb]
          simp [Quizzes.countCorrect]
      | true =>
        refine ⟨⟨j, some a, s + 1, true,
                 rows ++ Quizzes.saveQuizResult u topic quiz (s + 1)⟩, ?_, ?_, rfl, ?_⟩
        · simp only [List.foldlM_cons, List.foldlM_nil, Quizzes.answerAndNext,
            Quizzes.handleAnswerSelect, Quizzes.handleNextQuestion]
          rw [List.getElem?_eq_getElem hj]
          simp [hb, if_neg hj1]
        · rw [hdrop, hdrop1, countCorrect_cons, hb]
          simp [Quizzes.countCorrect]
        · rw [hdrop, hdrop1, countCorrect_cons, hb]
          simp [Quizzes.countCorrect]
    | cons b t =>
      have hj1 : j < quiz.length - 1 := by
        rw [List.length_cons] at hlen
        omega
      have hlen2 : (j + 1) + (b :: t).length = quiz.length := by
        rw [List.length_cons] at hlen ⊢
        omega
      cases hb : ((a : Int) == quiz[j].correct_answer) with
      | false =>
        obtain ⟨st, hfold, hscore, hshow, hrows⟩ :=
          ih (j + 1) s rows (by simp) hlen2
        have hstep : Quizzes.answerAndNext u topic quiz
            { currentQuestion := j, selectedAnswer := none, score := s,
              showResult := false, savedRows := rows } a =
            some { currentQuestion := j + 1, selectedAnswer := none, score := s,
                   showResult := false, savedRows := rows } := by
          simp only [Quizzes.answerAndNext, Quizzes.handleAnswerSelect,
            Quizzes.handleNextQuestion]
          rw [List.getElem?_eq_getElem hj]
          simp [hb, if_pos hj1]
        refine ⟨st, ?_, ?_, hshow, ?_⟩
        · rw [List.foldlM_cons, hstep]
          simpa using hfold
        · rw [hdrop, countCorrect_cons, hb, hscore]
          simp
          try omega
        · rw [hdrop, countCorrect_cons, hb, hrows]
          simp
      | true =>
        obtain ⟨st, hfold, hscore, hshow, hrows⟩ :=
          ih (j + 1) (s + 1) rows (by simp) hlen2
        have hstep : Quizzes.answerAndNext u topic quiz
            { currentQuestion := j, selectedAnswer := none, score := s,
              showResult := false, savedRows := rows } a =
            some { currentQuestion := j + 1, selectedAnswer := none, score := s + 1,
                   showResult := false, savedRows := rows } := by
          simp only [Quizzes.answerAndNext, Quizzes.handleAnswerSelect,
            Quizzes.handleNextQuestion]
          rw [List.getElem?_eq_getElem hj]
          simp [hb, if_pos hj1]
        refine ⟨st, ?_, ?_, hshow, ?_⟩
        · rw [List.foldlM_cons, hstep]
          simpa using hfold
        · rw [hdrop, countCorrect_cons, hb, hscore]
          simp
          try omega
        · rw [hdrop, countCorrect_cons, hb, hrows]
          have : s + 1 + Quizzes.countCorrect (b :: t) (quiz.drop (j + 1)) =
              s + (Quizzes.countCorrect (b :: t) (quiz.drop (j + 1)) + 1) := by omega
          rw [this]
          simp

/-- Claim C2: answering all `n` questions of a generated quiz, `k` of the
selected answers equalling the question's `correct_answer` index, persists
exactly one quiz row with `score = k`, `total_questions = n` and
`completed = true`. -/
theorem C2_quiz_completion_persists_score (u : String) (topic : String)
    (quiz : List Quizzes.Question) (answers : List Nat) (k : Nat)
    (hlen : answers.length = quiz.length) (hpos : 0 < quiz.length)
    (hk : k = Quizzes.countCorrect answers quiz) :
    (Quizzes.runQuiz (some u) topic quiz answers).map Quizzes.QuizState.savedRows =
      some [{ user_id := u, title := topic, questions := quiz, score := k,
              total_questions := quiz.length, completed := true }] := by
  have hne : answers ≠ [] := by
    intro h
    rw [h] at hlen
    simp at hlen
    omega
  obtain ⟨st, hfold, hscore, hshow, hrows⟩ :=
    runQuiz_aux (some u) topic quiz answers 0 0 [] hne (by simpa using hlen)
  rw [show Quizzes.runQuiz (some u) topic quiz answers =
        List.foldlM (Quizzes.answerAndNext (some u) topic quiz)
          { currentQuestion := 0, selectedAnswer := none, score := 0,
            showResult := false, savedRows := [] } answers from rfl, hfold]
  simp [hrows, Quizzes.saveQuizResult, hk]

/-- Witness for C2: the five-question sample quiz with three answers
correct persists exactly one row with score 3 of 5, completed. -/
theorem C2_quiz_completion_persists_score_witness :
    Quizzes.sampleAnswers.length = Quizzes.sampleQuiz.length ∧
    0 < Quizzes.sampleQuiz.length ∧
    3 = Quizzes.countCorrect Quizzes.sampleAnswers Quizzes.sampleQuiz ∧
    (Quizzes.runQuiz (some "user-1") "Photosynthesis" Quizzes.sampleQuiz
        Quizzes.sampleAnswers).map Quizzes.QuizState.savedRows =
      some [{ user_id := "user-1", title := "Photosynthesis",
              questions := Quizzes.sampleQuiz, score := 3,
              total_questions := Quizzes.sampleQuiz.length, completed := true }] :=
  ⟨rfl, by decide, by decide,
   C2_quiz_completion_persists_score "user-1" "Photosynthesis"
     Quizzes.sampleQuiz Quizzes.sampleAnswers 3 rfl (by decide) (by decide)⟩

/-- Claim C10: every quiz row written by `saveQuizResult` during a complete
quiz run satisfies the invariant `completed = true`, `total_questions`
equal to the length of the question list, and `0 ≤ score ≤ total_questions`
(the score grows by at most one per answered question from zero). -/
theorem C10_saved_row_invariant (u : String) (topic : String)
    (quiz : List Quizzes.Question) (answers : List Nat)
    (hlen : answers.length = quiz.length) (hpos : 0 < quiz.length) :
    ∃ st : Quizzes.QuizState,
      Quizzes.runQuiz (some u) topic quiz answers = some st ∧
      ∀ row ∈ st.savedRows,
        row.completed = true ∧
        row.total_questions = quiz.length ∧
        0 ≤ row.score ∧ row.score ≤ row.total_questions := by
  have hne : answers ≠ [] := by
    intro h
    rw [h] at hlen
    simp at hlen
    omega
  obtain ⟨st, hfold, hscore, hshow, hrows⟩ :=
    runQuiz_aux (some u) topic quiz answers 0 0 [] hne (by simpa using hlen)
  have hc : Quizzes.countCorrect answers quiz ≤ quiz.length := by
    unfold Quizzes.countCorrect
    exact le_trans (List.countP_le_length _)
      (by rw [List.length_zip]; exact min_le_right _ _)
  refine ⟨st, hfold, ?_⟩
  intro row hrow
  rw [hrows] at hrow
  simp [Quizzes.saveQuizResult] at hrow
  subst hrow
  refine ⟨rfl, rfl, Nat.zero_le _, ?_⟩
  simpa using hc

/-- Witness for C10 at the sample quiz run. -/
theorem C10_saved_row_invariant_witness :
    Quizzes.sampleAnswers.length = Quizzes.sampleQuiz.length ∧
    0 < Quizzes.sampleQuiz.length ∧
    (∃ st : Quizzes.QuizState,
      Quizzes.runQuiz (some "user-1") "Photosynthesis" Quizzes.sampleQuiz
          Quizzes.sampleAnswers = some st ∧
      ∀ row ∈ st.savedRows,
        row.completed = true ∧
        row.total_questions = Quizzes.sampleQuiz.length ∧
        0 ≤ row.score ∧ row.score ≤ row.total_questions) :=
  ⟨rfl, by decide,
   C10_saved_row_invariant "user-1" "Photosynthesis"
     Quizzes.sampleQuiz Quizzes.sampleAnswers rfl (by decide)⟩
